import Mathlib

/-!
Shallow embedding of the offline-resilient trip & fare engine of the
transit-kiosk frontend (Vue/JS).  Monetary values and JS numbers holding
money are modelled as exact rationals (`ℚ`); station identifiers are
integers (`Int`); the browser `localStorage` surface is modelled as
explicit state records threaded through the functions.  JS truthiness of
a number (`x || y` falls through when `x` is `0`) is modelled explicitly
where the source relies on it.
-/

namespace TransitKiosk

/-- A station, from `config/transitConfig.js` and the backend station list. -/
structure Station where
  id : Int
  name : String
deriving DecidableEq

/-- One fare-table row `{stationA, stationB, fare}` (unordered pair). -/
structure PricingEntry where
  stationA : Int
  stationB : Int
  fare : ℚ
deriving DecidableEq

/-- The bundled static snapshot's shape (`config/transitConfig.js`). -/
structure TransitConfig where
  lastUpdated : String
  version : String
  stations : List Station
  pricing : List PricingEntry
  minimumFare : ℚ

/-- The static snapshot shipped with the terminal image
(`config/transitConfig.js`), transcribed verbatim. -/
def transitConfig : TransitConfig :=
  { lastUpdated := "2025-09-28T23:16:00Z"
    version := "1.0.0"
    stations :=
      [ ⟨1, "Central Station"⟩, ⟨2, "Union Square"⟩, ⟨3, "Airport Terminal"⟩,
        ⟨4, "Downtown"⟩, ⟨5, "University"⟩, ⟨6, "Stadium"⟩,
        ⟨7, "Harbor Point"⟩, ⟨8, "Tech Center"⟩ ]
    pricing :=
      [ ⟨1, 2, 13/4⟩, ⟨1, 3, 9/2⟩, ⟨1, 4, 11/4⟩, ⟨1, 5, 5⟩,
        ⟨1, 6, 15/4⟩, ⟨1, 7, 17/4⟩, ⟨1, 8, 7/2⟩,
        ⟨2, 3, 4⟩, ⟨2, 4, 5/2⟩, ⟨2, 5, 11/2⟩, ⟨2, 6, 3⟩,
        ⟨2, 7, 19/4⟩, ⟨2, 8, 13/4⟩,
        ⟨3, 4, 9/4⟩, ⟨3, 5, 9/2⟩, ⟨3, 6, 15/4⟩, ⟨3, 7, 21/4⟩, ⟨3, 8, 11/4⟩,
        ⟨4, 5, 4⟩, ⟨4, 6, 7/2⟩, ⟨4, 7, 17/4⟩, ⟨4, 8, 5/2⟩,
        ⟨5, 6, 5⟩, ⟨5, 7, 13/4⟩, ⟨5, 8, 19/4⟩,
        ⟨6, 7, 15/4⟩, ⟨6, 8, 9/4⟩, ⟨7, 8, 13/4⟩ ]
    minimumFare := 9/4 }

/-- JS `a || b` on numbers: `0` is falsy, any other number truthy. -/
def jsOrQ (a b : ℚ) : ℚ := if a = 0 then b else a

/-- JS `a || b` where `a` may be `undefined` (`none`): `undefined` and `0`
both fall through to `b`. -/
def jsOrOptQ (a : Option ℚ) (b : ℚ) : ℚ :=
  match a with
  | none => b
  | some v => jsOrQ v b

/-- One backend fare-matrix row, as returned by `api.getAllPricing()`
(`{station_a_id, station_b_id, price}`). -/
structure ApiPricing where
  station_a_id : Int
  station_b_id : Int
  price : ℚ
deriving DecidableEq

/-- `Promise.all` over the three startup reads: succeeds iff all three
succeed (`none` models a rejected promise). -/
def promiseAll3 {α β γ : Type} (a : Option α) (b : Option β) (c : Option γ) :
    Option (α × β × γ) :=
  match a, b, c with
  | some x, some y, some z => some (x, y, z)
  | _, _, _ => none

/-- The `ConfigManager`'s built config (`this.config`):
`{stations, pricing, minimumFare}`. -/
structure Config where
  stations : List Station
  pricing : List PricingEntry
  minimumFare : ℚ
deriving DecidableEq

/-- Mutable state of the `ConfigManager` singleton
(`services/configManager.js`). -/
structure ConfigState where
  config : Option Config
  startedOffline : Bool
deriving DecidableEq

namespace ConfigManager

/-- The config built by `loadStaticConfig()`: the static snapshot's three
fields copied verbatim. -/
def staticSnapshotConfig : Config :=
  { stations := transitConfig.stations
    pricing := transitConfig.pricing
    minimumFare := transitConfig.minimumFare }

/-- `loadStaticConfig()`: sets `this.config` from the static snapshot. -/
def loadStaticConfig (st : ConfigState) : ConfigState :=
  { st with config := some staticSnapshotConfig }

/-- `initialize()`: `Promise.all` over the three backend reads; on success
builds the config from backend data (mapping each pricing row) and clears
`startedOffline`; on any failure loads the static snapshot and sets
`startedOffline = true`.  The three oracles are the outcomes of
`api.getStations()`, `api.getAllPricing()`, `api.getMinimumFare()`
(`none` = the call failed). -/
def initializeConfig (st : ConfigState) (stations? : Option (List Station))
    (pricing? : Option (List ApiPricing)) (minFare? : Option ℚ) : ConfigState :=
  match promiseAll3 stations? pricing? minFare? with
  | some (stations, pricing, minFare) =>
      { config := some
          { stations := stations
            pricing := pricing.map fun p =>
              ⟨p.station_a_id, p.station_b_id, p.price⟩
            minimumFare := minFare }
        startedOffline := false }
  | none => { loadStaticConfig st with startedOffline := true }

/-- `ensureConfig()`: load the static config if none is present. -/
def ensureConfig (st : ConfigState) : ConfigState :=
  match st.config with
  | some _ => st
  | none => loadStaticConfig st

/-- `getStations()`: `this.config?.stations || transitConfig.stations`
after `ensureConfig()` (after `ensureConfig` the config is always set, and
a JS array is truthy even when empty). -/
def getStations (st : ConfigState) : List Station :=
  match (ensureConfig st).config with
  | some c => c.stations
  | none => transitConfig.stations

/-- `getMinimumFare()`:
`this.config?.minimumFare || transitConfig.minimumFare || 2.25`. -/
def getMinimumFare (st : ConfigState) : ℚ :=
  jsOrOptQ ((ensureConfig st).config.map Config.minimumFare)
    (jsOrQ transitConfig.minimumFare (9/4))

/-- The pricing list `getPricing` searches:
`this.config?.pricing || transitConfig.pricing` after `ensureConfig()`. -/
def currentPricing (st : ConfigState) : List PricingEntry :=
  match (ensureConfig st).config with
  | some c => c.pricing
  | none => transitConfig.pricing

/-- The `find` predicate of `getPricing`: matches the unordered pair. -/
def pairMatch (a b : Int) (p : PricingEntry) : Bool :=
  (decide (p.stationA = a) && decide (p.stationB = b)) ||
    (decide (p.stationA = b) && decide (p.stationB = a))

/-- `getPricing(stationA, stationB)`: find the unordered pair in the
current pricing list; `found?.fare || this.getMinimumFare()` (note the JS
`||`: an absent pair, and also a matched fare of `0`, fall through to the
minimum fare). -/
def getPricing (st : ConfigState) (a b : Int) : ℚ :=
  let st' := ensureConfig st
  jsOrOptQ (((currentPricing st).find? (pairMatch a b)).map PricingEntry.fare)
    (getMinimumFare st')

end ConfigManager

/-- An active-trip record as stored under `card_trip_<uuid>`
(`config/testConfig.js`): `{station_id, timestamp}`. -/
structure TripData where
  station_id : Int
  timestamp : String
deriving DecidableEq

/-- The `localStorage` keys the card ledger uses: `card_balance_<uuid>`
(a number) and `card_trip_<uuid>` (a trip record), per card UUID. -/
structure CardStore where
  balance : String → Option ℚ
  trip : String → Option TripData

namespace testConfig

/-- `scanCard()`: read the stored balance for the test card; if absent,
seed it with `25.00` and store it.  Returns the (possibly updated) store
and the scanned balance. -/
def scanCard (store : CardStore) (uuid : String) : CardStore × ℚ :=
  match store.balance uuid with
  | some b => (store, b)
  | none =>
      ({ store with
          balance := fun u => if u = uuid then some 25 else store.balance u },
        25)

/-- `writeCardBalance(uuid, newBalance)`. -/
def writeCardBalance (store : CardStore) (uuid : String) (newBalance : ℚ) :
    CardStore :=
  { store with
      balance := fun u => if u = uuid then some newBalance else store.balance u }

/-- `writeCardTrip(uuid, stationId, timestamp)`. -/
def writeCardTrip (store : CardStore) (uuid : String) (stationId : Int)
    (timestamp : String) : CardStore :=
  { store with
      trip := fun u =>
        if u = uuid then some ⟨stationId, timestamp⟩ else store.trip u }

/-- `readCardTrip(uuid)`. -/
def readCardTrip (store : CardStore) (uuid : String) : Option TripData :=
  store.trip uuid

/-- `clearCardTrip(uuid)`. -/
def clearCardTrip (store : CardStore) (uuid : String) : CardStore :=
  { store with trip := fun u => if u = uuid then none else store.trip u }

end testConfig

/-- The error-message payloads the scanner handlers interpolate into their
`errorMessage` strings.  The insufficient-balance exit message carries the
three interpolated amounts (`fare`, `balance`, `fare - balance`). -/
inductive ErrMsg
  | noTestCard
  | noEntryStation
  | noExitStation
  | unableToCalculateFare
  | insufficientBalanceExit (fare balance short : ℚ)
  | insufficientBalanceEntry
deriving DecidableEq

/-- The result object the scanner handlers return to the UI layer. -/
structure ScanOutcome where
  success : Bool
  scannerState : String
  errorMessage : Option ErrMsg := none
  isInsufficientBalance : Bool := false
  lastScannedCard : Option (String × ℚ) := none
  timeout : Option Nat := none
deriving DecidableEq

namespace ScannerService

open testConfig

/-- `handleDefaultScan` (entry flow, `services/scannerService.js`):
scan the card (seeding the balance if unknown), resolve the entry station
(`0` models a falsy/unconfigured station id), reject when
`balance < minimumFare` with no ledger mutation, otherwise
`writeCardTrip(uuid, entryStationId, now)` — unconditionally, with no
check of an existing active trip.  The backend `createTrip` call is
fire-and-forget and touches no local state. -/
def handleDefaultScan (store : CardStore) (testCardUuid : Option String)
    (entryStationId : Int) (minimumFare : ℚ) (now : String) :
    CardStore × ScanOutcome :=
  match testCardUuid with
  | none =>
      (store, { success := false, scannerState := "error",
                errorMessage := some .noTestCard, timeout := some 5000 })
  | some uuid =>
      let s := scanCard store uuid
      if entryStationId = 0 then
        (s.1, { success := false, scannerState := "error",
                errorMessage := some .noEntryStation, timeout := some 5000 })
      else if s.2 < minimumFare then
        (s.1, { success := false, scannerState := "error",
                errorMessage := some .insufficientBalanceEntry,
                isInsufficientBalance := true,
                lastScannedCard := some (uuid, s.2), timeout := some 5000 })
      else
        (writeCardTrip s.1 uuid entryStationId now,
          { success := true, scannerState := "success" })

/-- `handleScanToExit` (exit flow, `services/scannerService.js`), local
part: scan the card, read the stored trip (no trip → plain exit, no
mutation), resolve the exit station, fetch the fare
(`fareStore.fetchFareBetweenStations(tripData.station_id, exitStationId)`,
modelled by the `fetchFare` oracle, `none` = `null`), reject with the
shortfall message when `balance < fare` (no mutation), otherwise
`writeCardBalance(uuid, balance - fare)` then `clearCardTrip(uuid)`.
The backend completion chain is fire-and-forget and is modelled by
`exitBackendSync` below. -/
def handleScanToExit (store : CardStore) (testCardUuid : Option String)
    (exitStationId : Int) (fetchFare : Int → Int → Option ℚ) :
    CardStore × ScanOutcome :=
  match testCardUuid with
  | none =>
      (store, { success := false, scannerState := "error",
                errorMessage := some .noTestCard, timeout := some 5000 })
  | some uuid =>
      let s := scanCard store uuid
      match readCardTrip s.1 uuid with
      | none => (s.1, { success := true, scannerState := "success" })
      | some tripData =>
          if exitStationId = 0 then
            (s.1, { success := false, scannerState := "error",
                    errorMessage := some .noExitStation, timeout := some 5000 })
          else
            match fetchFare tripData.station_id exitStationId with
            | none =>
                (s.1, { success := false, scannerState := "error",
                        errorMessage := some .unableToCalculateFare,
                        timeout := some 5000 })
            | some fare =>
                if s.2 < fare then
                  (s.1, { success := false, scannerState := "error",
                          errorMessage := some
                            (.insufficientBalanceExit fare s.2 (fare - s.2)),
                          isInsufficientBalance := true,
                          lastScannedCard := some (uuid, s.2),
                          timeout := some 5000 })
                else
                  (clearCardTrip
                      (writeCardBalance s.1 uuid (s.2 - fare)) uuid,
                    { success := true, scannerState := "success" })

end ScannerService

/-- The `data` payload of a failed operation
(`api/offlineWrapper.js`). -/
inductive OpData
  | createTripData (cardUuid : String) (stationId : Int)
  | completeTripData (tripId : String) (destinationStationId : Int)
      (finalCost : ℚ)
  | createCardData (initialBalance : ℚ) (uuid : String)
  | addFundsData (cardId : Int) (amount : ℚ)
deriving DecidableEq

/-- The operation record handed to
`failedOpsWriter.writeFailedOperation({type, data, timestamp})`. -/
structure Operation where
  type : String
  data : OpData
  timestamp : String
deriving DecidableEq

namespace OfflineApi

/-- `offlineApi.completeTrip`: try the real API; on failure record a
`COMPLETE_TRIP` failed operation carrying
`{tripId, destinationStationId, finalCost}`.  Returns the list of failed
operations the call records (`apiOk = true` means the backend call
succeeded). -/
def completeTripFailedOps (apiOk : Bool) (tripId : String)
    (destinationStationId : Int) (finalCost : ℚ) (now : String) :
    List Operation :=
  if apiOk then []
  else [⟨"COMPLETE_TRIP",
          .completeTripData tripId destinationStationId finalCost, now⟩]

/-- A backend card record, as used by the exit flow's completion chain. -/
structure ApiCard where
  id : Int
deriving DecidableEq

/-- A backend active-trip record. -/
structure ApiTrip where
  id : String
deriving DecidableEq

/-- The exit flow's fire-and-forget backend completion chain
(`scannerService.js`, `handleScanToExit`):
`offlineApi.getCardByUuid` swallows a network failure and resolves to
`null`, so the chain's `if (card)` guard skips everything when the
backend is unreachable; likewise `offlineApi.getActiveTrip` resolves to
`null` on failure, skipping `completeTrip`.  Only when both lookups
return a value is `offlineApi.completeTrip` invoked, which records a
`COMPLETE_TRIP` failed operation iff the final call fails.  The oracles:
`apiCard` is the (wrapped) card lookup result, `apiActiveTrip` the
(wrapped) active-trip lookup result, `apiCompleteOk` whether
`api.completeTrip` succeeds.  Returns the failed operations recorded. -/
def exitBackendSync (apiCard : Option ApiCard)
    (apiActiveTrip : Option ApiTrip) (apiCompleteOk : Bool)
    (exitStationId : Int) (fare : ℚ) (now : String) : List Operation :=
  match apiCard with
  | none => []
  | some _card =>
      match apiActiveTrip with
      | none => []
      | some activeTrip =>
          completeTripFailedOps apiCompleteOk activeTrip.id exitStationId
            fare now

end OfflineApi

/-- A persisted failed-operation record
(`services/failedOpsWriter.js`): id, timestamp and kiosk id are drawn
from the environment (`Date.now`, `Math.random`, stored kiosk id). -/
structure FailedOp where
  id : String
  timestamp : String
  kioskId : String
  operation : Operation
  error : String
deriving DecidableEq

/-- The record `writeFailedOperation` constructs (the `error` field is the
literal `'Network unavailable'`). -/
def mkFailedOp (id timestamp kioskId : String) (operation : Operation) :
    FailedOp :=
  ⟨id, timestamp, kioskId, operation, "Network unavailable"⟩

/-- State of the `FailedOpsWriter` singleton: the in-memory batch
`this.failedOps` and the `localStorage` key `failed_operations`. -/
structure WriterState where
  failedOps : List FailedOp
  storage : List FailedOp
deriving DecidableEq

namespace FailedOpsWriter

/-- JS `array.slice(-n)`: the last `n` elements (the whole array when it
is shorter). -/
def sliceLast {α : Type} (n : Nat) (l : List α) : List α :=
  l.drop (l.length - n)

/-- `saveToLocalStorage()`: read the stored backlog, push the ENTIRE
in-memory batch onto it, keep only the last 100 entries
(`existing.push(...this.failedOps); existing.slice(-100)`). -/
def saveToLocalStorage (st : WriterState) : WriterState :=
  { st with storage := sliceLast 100 (st.storage ++ st.failedOps) }

/-- `writeFailedOperation(operation)`: push the freshly built record onto
the in-memory batch, then `saveToLocalStorage()`.  The subsequent
`exportToFile([failedOp])` is passed an explicit argument, so it does NOT
clear `this.failedOps` (that only happens on an argument-less export),
and it touches no modelled state. -/
def writeFailedOperation (st : WriterState) (op : FailedOp) : WriterState :=
  saveToLocalStorage { st with failedOps := st.failedOps ++ [op] }

/-- `k` successive `writeFailedOperation` calls starting from `st`, the
`j`-th call recording `f j`. -/
def recordIter (f : Nat → FailedOp) : Nat → WriterState → WriterState
  | 0, st => st
  | k + 1, st => writeFailedOperation (recordIter f k st) (f k)

end FailedOpsWriter

/-- The config state after a boot with the backend unreachable: all three
startup reads fail, so `initialize()` falls back to the static snapshot. -/
def staticBootState : ConfigState :=
  ConfigManager.initializeConfig ⟨none, false⟩ none none none

/-- A concrete ledger: one known card `card-1` with stored balance `25.00`
and an active trip entered at station 1. -/
def testCardStore : CardStore :=
  { balance := fun u => if u = "card-1" then some 25 else none
    trip := fun u =>
      if u = "card-1" then some ⟨1, "2025-01-01T08:00:00Z"⟩ else none }

/-- A backend-built config whose fare table holds the unordered pair
(1,2) with a fare of `0` (a zero fare is a legal `decimal` per the data
model, which bounds only `minimumFare` away from zero). -/
def zeroFareConfig : Config :=
  { stations := [], pricing := [⟨1, 2, 0⟩], minimumFare := 9/4 }

/-- A first concrete failed operation. -/
def opA : FailedOp :=
  mkFailedOp "failed_1700000000000_aaaaaaaaa" "2025-01-01T08:00:00Z"
    "kiosk_1" ⟨"CREATE_TRIP", .createTripData "card-1" 1, "2025-01-01T08:00:00Z"⟩

/-- A second, distinct concrete failed operation. -/
def opB : FailedOp :=
  mkFailedOp "failed_1700000000001_bbbbbbbbb" "2025-01-01T08:05:00Z"
    "kiosk_1" ⟨"COMPLETE_TRIP", .completeTripData "7" 2 (13/4),
      "2025-01-01T08:05:00Z"⟩

/-- The operation stream recording `opA` first, then `opB` forever. -/
def recOps : Nat → FailedOp := fun n => if n = 0 then opA else opB

end TransitKiosk

open TransitKiosk TransitKiosk.ConfigManager TransitKiosk.ScannerService
open TransitKiosk.testConfig TransitKiosk.OfflineApi TransitKiosk.FailedOpsWriter

/-- `ensureConfig` is idempotent: once a config is present it is kept. -/
theorem ensureConfig_idem (st : ConfigState) :
    ensureConfig (ensureConfig st) = ensureConfig st := by
  cases h : st.config with
  | some c => simp [ensureConfig, h]
  | none => simp [ensureConfig, h, loadStaticConfig]

/-- `getMinimumFare` is insensitive to a prior `ensureConfig`. -/
theorem getMinimumFare_ensure (st : ConfigState) :
    getMinimumFare (ensureConfig st) = getMinimumFare st := by
  simp only [getMinimumFare, ensureConfig_idem]

/-- C1 (code_bug evidence).  Exit tap on `card-1` (active trip from
station 1, balance 25.00, fare 3.25 to exit station 2) with the backend
unreachable: the local ledger is still debited to 21.75 and the trip
cleared, but the fire-and-forget completion chain records NO failed
operation at all — `offlineApi.getCardByUuid` resolves to `null` on a
network failure, so the `if (card)` guard skips `completeTrip` and the
`COMPLETE_TRIP` record the spec requires is never written. -/
theorem exit_backend_unreachable_debits_but_records_nothing :
    (handleScanToExit testCardStore (some "card-1") 2
        (fun _ _ => some (13/4))).1.balance "card-1" = some (87/4) ∧
    (handleScanToExit testCardStore (some "card-1") 2
        (fun _ _ => some (13/4))).1.trip "card-1" = none ∧
    exitBackendSync none none false 2 (13/4) "t" = [] ∧
    (exitBackendSync none none false 2 (13/4) "t").length ≠ 1 := by
  refine ⟨?_, ?_, rfl, by simp [exitBackendSync]⟩
  · norm_num [handleScanToExit, scanCard, testCardStore, readCardTrip,
      clearCardTrip, writeCardBalance]
  · norm_num [handleScanToExit, scanCard, testCardStore, readCardTrip,
      clearCardTrip, writeCardBalance]

/-- C2: for every exit attempt where the card has an active trip and a
stored balance at least the fetched fare, the resulting balance is
exactly `balance − fare` (exact rational arithmetic) and the active trip
is cleared. -/
theorem exit_sufficient_balance_debits_fare_and_clears_trip
    (store : CardStore) (uuid : String) (exitStationId : Int)
    (fetchFare : Int → Int → Option ℚ) (b fare : ℚ) (td : TripData)
    (hb : store.balance uuid = some b)
    (ht : store.trip uuid = some td)
    (hst : exitStationId ≠ 0)
    (hf : fetchFare td.station_id exitStationId = some fare)
    (hge : fare ≤ b) :
    (handleScanToExit store (some uuid) exitStationId fetchFare).1.balance
        uuid = some (b - fare) ∧
    (handleScanToExit store (some uuid) exitStationId
        fetchFare).1.trip uuid = none ∧
    (handleScanToExit store (some uuid) exitStationId
        fetchFare).2.success = true := by
  simp only [handleScanToExit, scanCard, hb, readCardTrip, ht,
    if_neg hst, hf, if_neg (not_lt.mpr hge), clearCardTrip,
    writeCardBalance]
  simp

/-- C2 witness: card `card-1` with balance 25.00 exits at station 2 with
fare 3.25 — the resulting balance is exactly 21.75 (87/4) and the trip is
cleared. -/
theorem exit_sufficient_balance_debits_fare_and_clears_trip_witness :
    (handleScanToExit testCardStore (some "card-1") 2
        (fun _ _ => some (13/4))).1.balance "card-1" = some (87/4) ∧
    (handleScanToExit testCardStore (some "card-1") 2
        (fun _ _ => some (13/4))).1.trip "card-1" = none ∧
    (handleScanToExit testCardStore (some "card-1") 2
        (fun _ _ => some (13/4))).2.success = true := by
  have h := exit_sufficient_balance_debits_fare_and_clears_trip
    testCardStore "card-1" 2 (fun _ _ => some (13/4)) 25 (13/4)
    ⟨1, "2025-01-01T08:00:00Z"⟩ rfl rfl (by norm_num) rfl (by norm_num)
  have e : (25 : ℚ) - 13/4 = 87/4 := by norm_num
  rw [e] at h
  exact h

/-- C3: for every exit attempt where the card has an active trip and a
stored balance below the fare, the ledger is left entirely unchanged (the
trip is not cleared) and the rejection message carries the shortfall
`fare − balance` exactly. -/
theorem exit_insufficient_balance_leaves_state_unchanged
    (store : CardStore) (uuid : String) (exitStationId : Int)
    (fetchFare : Int → Int → Option ℚ) (b fare : ℚ) (td : TripData)
    (hb : store.balance uuid = some b)
    (ht : store.trip uuid = some td)
    (hst : exitStationId ≠ 0)
    (hf : fetchFare td.station_id exitStationId = some fare)
    (hlt : b < fare) :
    (handleScanToExit store (some uuid) exitStationId fetchFare).1
        = store ∧
    (handleScanToExit store (some uuid) exitStationId
        fetchFare).1.trip uuid = some td ∧
    (handleScanToExit store (some uuid) exitStationId fetchFare).2
        = ⟨false, "error",
            some (.insufficientBalanceExit fare b (fare - b)), true,
            some (uuid, b), some 5000⟩ := by
  simp only [handleScanToExit, scanCard, hb, readCardTrip, ht,
    if_neg hst, hf, if_pos hlt]
  simp [ht]

/-- C3 witness: card `card-1` with balance 25.00 and fare 30.00 — the
store is untouched, the trip stays, and the reported shortfall is exactly
5.00. -/
theorem exit_insufficient_balance_leaves_state_unchanged_witness :
    (handleScanToExit testCardStore (some "card-1") 2
        (fun _ _ => some 30)).1 = testCardStore ∧
    (handleScanToExit testCardStore (some "card-1") 2
        (fun _ _ => some 30)).1.trip "card-1"
      = some ⟨1, "2025-01-01T08:00:00Z"⟩ ∧
    (handleScanToExit testCardStore (some "card-1") 2
        (fun _ _ => some 30)).2
      = ⟨false, "error", some (.insufficientBalanceExit 30 25 5), true,
          some ("card-1", 25), some 5000⟩ := by
  have h := exit_insufficient_balance_leaves_state_unchanged
    testCardStore "card-1" 2 (fun _ _ => some 30) 25 30
    ⟨1, "2025-01-01T08:00:00Z"⟩ rfl rfl (by norm_num) rfl (by norm_num)
  have e : (30 : ℚ) - 25 = 5 := by norm_num
  rw [e] at h
  exact h

/-- C4: for every entry attempt on a card with a stored balance at least
the minimum fare, the resulting ledger has the active trip set to the
entry station and timestamp, and the balance map is unchanged (entry
never debits). -/
theorem entry_sets_trip_and_preserves_balance
    (store : CardStore) (uuid : String) (entryStationId : Int)
    (minimumFare : ℚ) (now : String) (b : ℚ)
    (hb : store.balance uuid = some b)
    (hst : entryStationId ≠ 0)
    (hge : minimumFare ≤ b) :
    (handleDefaultScan store (some uuid) entryStationId minimumFare
        now).1.trip uuid = some ⟨entryStationId, now⟩ ∧
    (handleDefaultScan store (some uuid) entryStationId minimumFare
        now).1.balance = store.balance ∧
    (handleDefaultScan store (some uuid) entryStationId minimumFare
        now).2.success = true := by
  simp only [handleDefaultScan, scanCard, hb, if_neg hst,
    if_neg (not_lt.mpr hge), writeCardTrip]
  simp

/-- C4 witness: card `card-1` with balance 25.00 enters at station 3 with
minimum fare 2.25 — the trip is recorded and the balance map is
untouched. -/
theorem entry_sets_trip_and_preserves_balance_witness :
    (handleDefaultScan testCardStore (some "card-1") 3 (9/4)
        "2025-01-01T09:00:00Z").1.trip "card-1"
      = some ⟨3, "2025-01-01T09:00:00Z"⟩ ∧
    (handleDefaultScan testCardStore (some "card-1") 3 (9/4)
        "2025-01-01T09:00:00Z").1.balance = testCardStore.balance ∧
    (handleDefaultScan testCardStore (some "card-1") 3 (9/4)
        "2025-01-01T09:00:00Z").2.success = true :=
  entry_sets_trip_and_preserves_balance testCardStore "card-1" 3 (9/4)
    "2025-01-01T09:00:00Z" 25 rfl (by norm_num) (by norm_num)

/-- C5 counterexample: with a config whose fare table holds the unordered
pair (1,2) at fare `0`, `getPricing(1,2)` does not return the matched
entry's fare — the JS `found?.fare || minimumFare` treats the matched `0`
as falsy and returns the minimum fare `2.25` instead. -/
theorem getPricing_zero_fare_counterexample :
    currentPricing ⟨some zeroFareConfig, false⟩ = [⟨1, 2, 0⟩] ∧
    (currentPricing ⟨some zeroFareConfig, false⟩).find? (pairMatch 1 2)
      = some ⟨1, 2, 0⟩ ∧
    getPricing ⟨some zeroFareConfig, false⟩ 1 2 = 9/4 ∧
    (9/4 : ℚ) ≠ 0 := by
  refine ⟨rfl, ?_, ?_, by norm_num⟩
  · norm_num [currentPricing, ensureConfig, zeroFareConfig, pairMatch,
      List.find?]
  · norm_num [getPricing, currentPricing, ensureConfig, zeroFareConfig,
      pairMatch, List.find?, jsOrOptQ, jsOrQ, getMinimumFare,
      transitConfig]

/-- C5 (amended): `getPricing` returns the first matched entry's fare when
the unordered pair is present with a nonzero fare; when the pair is absent
— or matched with a fare of exactly `0` — it returns the minimum fare.
It is total: no input pair produces an error. -/
theorem getPricing_matched_nonzero_or_minimum
    (st : ConfigState) (a b : Int) :
    (∀ p, (currentPricing st).find? (pairMatch a b) = some p →
      p.fare ≠ 0 → getPricing st a b = p.fare) ∧
    (∀ p, (currentPricing st).find? (pairMatch a b) = some p →
      p.fare = 0 → getPricing st a b = getMinimumFare st) ∧
    ((currentPricing st).find? (pairMatch a b) = none →
      getPricing st a b = getMinimumFare st) := by
  refine ⟨?_, ?_, ?_⟩
  · intro p hfind hne
    simp only [getPricing, hfind, Option.map_some', jsOrOptQ, jsOrQ,
      if_neg hne]
  · intro p hfind hz
    simp only [getPricing, hfind, Option.map_some', jsOrOptQ, jsOrQ,
      if_pos hz, getMinimumFare_ensure]
  · intro hfind
    simp only [getPricing, hfind, Option.map_none', jsOrOptQ,
      getMinimumFare_ensure]

/-- C5 witness: on the static snapshot, the present pair (1,2) yields its
table fare 3.25, and the absent pair (1,1) yields the minimum fare. -/
theorem getPricing_matched_nonzero_or_minimum_witness :
    getPricing staticBootState 1 2 = 13/4 ∧
    getPricing staticBootState 1 1 = getMinimumFare staticBootState := by
  have h := getPricing_matched_nonzero_or_minimum staticBootState 1 2
  have h' := getPricing_matched_nonzero_or_minimum staticBootState 1 1
  constructor
  · have := h.1 ⟨1, 2, 13/4⟩ (by
      norm_num [currentPricing, ensureConfig, staticBootState,
        initializeConfig, promiseAll3, loadStaticConfig,
        staticSnapshotConfig, transitConfig, pairMatch, List.find?])
      (by norm_num)
    simpa using this
  · exact h'.2.2 (by
      norm_num [currentPricing, ensureConfig, staticBootState,
        initializeConfig, promiseAll3, loadStaticConfig,
        staticSnapshotConfig, transitConfig, pairMatch, List.find?])

/-- C6: `getPricing` is symmetric in its two station arguments for every
config state, and on the static snapshot both `getPricing(1,2)` and
`getPricing(2,1)` evaluate to 3.25. -/
theorem getPricing_symmetric_and_static_round_trip :
    (∀ (st : ConfigState) (a b : Int),
      getPricing st a b = getPricing st b a) ∧
    getPricing staticBootState 1 2 = 13/4 ∧
    getPricing staticBootState 2 1 = 13/4 := by
  refine ⟨?_, ?_, ?_⟩
  · intro st a b
    unfold getPricing
    have h : pairMatch a b = pairMatch b a := by
      funext p
      simp only [pairMatch]
      exact Bool.or_comm _ _
    rw [h]
  · norm_num [getPricing, currentPricing, pairMatch, ensureConfig,
      loadStaticConfig, staticSnapshotConfig, transitConfig, jsOrOptQ,
      jsOrQ, getMinimumFare, staticBootState, initializeConfig,
      promiseAll3, List.find?]
  · norm_num [getPricing, currentPricing, pairMatch, ensureConfig,
      loadStaticConfig, staticSnapshotConfig, transitConfig, jsOrOptQ,
      jsOrQ, getMinimumFare, staticBootState, initializeConfig,
      promiseAll3, List.find?]

/-- C7: config initialization is all-or-nothing.  If the joined
`Promise.all` of the three backend reads fails — which happens exactly
when any single read fails — the static snapshot is loaded verbatim and
`startedOffline` is set, and `getStations()` then returns the snapshot's
station list exactly; if all three succeed, the config is built from the
backend data and `startedOffline` is cleared. -/
theorem initializeConfig_all_or_nothing (st : ConfigState)
    (stations? : Option (List Station)) (pricing? : Option (List ApiPricing))
    (minFare? : Option ℚ) :
    (promiseAll3 stations? pricing? minFare? = none →
      initializeConfig st stations? pricing? minFare?
          = ⟨some staticSnapshotConfig, true⟩ ∧
      getStations (initializeConfig st stations? pricing? minFare?)
          = transitConfig.stations) ∧
    ((stations? = none ∨ pricing? = none ∨ minFare? = none) →
      promiseAll3 stations? pricing? minFare? = none) ∧
    (∀ s p m, stations? = some s → pricing? = some p → minFare? = some m →
      initializeConfig st stations? pricing? minFare?
        = ⟨some ⟨s, p.map fun r => ⟨r.station_a_id, r.station_b_id, r.price⟩,
            m⟩, false⟩) := by
  refine ⟨?_, ?_, ?_⟩
  · intro h
    constructor
    · simp [initializeConfig, h, loadStaticConfig]
    · simp [initializeConfig, h, loadStaticConfig, getStations,
        ensureConfig, staticSnapshotConfig]
  · rintro (h | h | h) <;> subst h
    · rfl
    · cases stations? <;> rfl
    · cases stations? <;> cases pricing? <;> rfl
  · intro s p m hs hp hm
    subst hs; subst hp; subst hm
    simp [initializeConfig, promiseAll3]

/-- C7 witness: with the station read failing (and the other two
succeeding) the boot is offline with the static snapshot and its station
list; with all three succeeding the config is built from backend data. -/
theorem initializeConfig_all_or_nothing_witness :
    initializeConfig ⟨none, false⟩ none (some []) (some (9/4))
      = ⟨some staticSnapshotConfig, true⟩ ∧
    getStations (initializeConfig ⟨none, false⟩ none (some []) (some (9/4)))
      = transitConfig.stations ∧
    initializeConfig ⟨none, false⟩ (some transitConfig.stations) (some [])
        (some (9/4))
      = ⟨some ⟨transitConfig.stations, [], 9/4⟩, false⟩ := by
  have h := initializeConfig_all_or_nothing ⟨none, false⟩ none (some [])
    (some (9/4))
  have h2 := initializeConfig_all_or_nothing ⟨none, false⟩
    (some transitConfig.stations) (some []) (some (9/4))
  refine ⟨(h.1 (h.2.1 (Or.inl rfl))).1, (h.1 (h.2.1 (Or.inl rfl))).2, ?_⟩
  have := h2.2.2 transitConfig.stations [] (9/4) rfl rfl rfl
  simpa using this

/-- C8 counterexample: card `card-1` already holds an active trip (entered
at station 1), yet an accepted entry at station 2 succeeds and silently
replaces the existing active trip — `handleDefaultScan` never reads the
stored trip, so the trip state machine admits an ACTIVE → ACTIVE
transition that overwrites the active trip, contrary to the claim. -/
theorem entry_overwrites_active_trip_counterexample :
    testCardStore.trip "card-1" = some ⟨1, "2025-01-01T08:00:00Z"⟩ ∧
    (handleDefaultScan testCardStore (some "card-1") 2 (9/4)
        "2025-01-01T09:00:00Z").2.success = true ∧
    (handleDefaultScan testCardStore (some "card-1") 2 (9/4)
        "2025-01-01T09:00:00Z").1.trip "card-1"
      = some ⟨2, "2025-01-01T09:00:00Z"⟩ ∧
    (⟨2, "2025-01-01T09:00:00Z"⟩ : TripData)
      ≠ ⟨1, "2025-01-01T08:00:00Z"⟩ := by
  refine ⟨rfl, ?_, ?_, by decide⟩
  · norm_num [handleDefaultScan, scanCard, testCardStore, writeCardTrip]
  · norm_num [handleDefaultScan, scanCard, testCardStore, writeCardTrip]

/-- C8 (amended): the entry flow performs no active-trip check — on any
card with a stored balance at least the minimum fare, an accepted entry
unconditionally overwrites whatever active trip is already stored, so the
admitted transitions are IDLE → ACTIVE, ACTIVE → IDLE, IDLE → IDLE and
also ACTIVE → ACTIVE (silent overwrite). -/
theorem entry_accepts_and_overwrites_active_trip
    (store : CardStore) (uuid : String) (prior : TripData)
    (entryStationId : Int) (minimumFare : ℚ) (now : String) (b : ℚ)
    (hb : store.balance uuid = some b)
    (ht : store.trip uuid = some prior)
    (hst : entryStationId ≠ 0)
    (hge : minimumFare ≤ b) :
    (handleDefaultScan store (some uuid) entryStationId minimumFare
        now).2.success = true ∧
    (handleDefaultScan store (some uuid) entryStationId minimumFare
        now).1.trip uuid = some ⟨entryStationId, now⟩ := by
  simp only [handleDefaultScan, scanCard, hb, if_neg hst,
    if_neg (not_lt.mpr hge), writeCardTrip]
  simp

/-- C8 witness: the amended overwrite behaviour at the concrete store of
the counterexample. -/
theorem entry_accepts_and_overwrites_active_trip_witness :
    (handleDefaultScan testCardStore (some "card-1") 2 (9/4)
        "2025-01-01T09:00:00Z").2.success = true ∧
    (handleDefaultScan testCardStore (some "card-1") 2 (9/4)
        "2025-01-01T09:00:00Z").1.trip "card-1"
      = some ⟨2, "2025-01-01T09:00:00Z"⟩ :=
  entry_accepts_and_overwrites_active_trip testCardStore "card-1"
    ⟨1, "2025-01-01T08:00:00Z"⟩ 2 (9/4) "2025-01-01T09:00:00Z" 25
    rfl rfl (by norm_num) (by norm_num)

/-- C9: after every `writeFailedOperation` the persisted backlog holds at
most 100 records; its length is exactly the merged backlog's length capped
at 100, and it is a suffix of the merged backlog (stored records, then the
in-memory batch ending in the new record) — so when the cap binds it is
the oldest (front) entries that are evicted and the most recent suffix
that is kept. -/
theorem writeFailedOperation_storage_capped
    (st : WriterState) (op : FailedOp) :
    ((writeFailedOperation st op).storage).length ≤ 100 ∧
    ((writeFailedOperation st op).storage).length
      = min 100 (st.storage ++ st.failedOps ++ [op]).length ∧
    (writeFailedOperation st op).storage
      <:+ (st.storage ++ st.failedOps ++ [op]) := by
  simp only [writeFailedOperation, saveToLocalStorage, sliceLast,
    List.append_assoc]
  refine ⟨?_, ?_, List.drop_suffix _ _⟩
  · simp [List.length_drop]
    omega
  · simp [List.length_drop]
    omega

/-- C10 counterexample: starting from an empty writer state, two
`writeFailedOperation` calls with distinct operations leave THREE records
in the persisted backlog, the first operation appearing twice — each call
re-persists the entire in-memory batch, which is never cleared — so the
backlog does not contain exactly k operations after k calls. -/
theorem record_twice_duplicates_backlog_counterexample :
    opA ≠ opB ∧
    (writeFailedOperation (writeFailedOperation ⟨[], []⟩ opA) opB).storage
      = [opA, opA, opB] ∧
    ((writeFailedOperation (writeFailedOperation ⟨[], []⟩ opA)
        opB).storage).length = 3 ∧
    ((writeFailedOperation (writeFailedOperation ⟨[], []⟩ opA)
        opB).storage).count opA = 2 := by
  refine ⟨?_, ?_, ?_, ?_⟩
  · simp [opA, opB, mkFailedOp]
  · simp [writeFailedOperation, saveToLocalStorage, sliceLast]
  · simp [writeFailedOperation, saveToLocalStorage, sliceLast]
  · simp [writeFailedOperation, saveToLocalStorage, sliceLast,
      List.count_cons, opA, opB, mkFailedOp]

/-- The k-th triangular number identity used for the backlog growth. -/
theorem triangle_succ (k : Nat) :
    (k + 1) * (k + 2) / 2 = k * (k + 1) / 2 + (k + 1) := by
  have h : (k + 1) * (k + 2) = k * (k + 1) + 2 * (k + 1) := by ring
  rw [h, Nat.add_mul_div_left _ _ (by norm_num : 0 < 2)]

/-- C10 (amended): each `writeFailedOperation` call appends the ENTIRE
in-memory batch accumulated so far (never cleared by recording) to the
persisted backlog.  Starting from an empty state, after k calls the
in-memory batch holds the k recorded operations, and — as long as the
triangular total k(k+1)/2 stays within the 100-record cap — the persisted
backlog is the concatenation of the successive batch prefixes and holds
exactly k(k+1)/2 records, so operations recur rather than appearing
exactly once. -/
theorem recordIter_storage_triangular (f : Nat → FailedOp) (k : Nat)
    (h : k * (k + 1) / 2 ≤ 100) :
    (recordIter f k ⟨[], []⟩).failedOps = (List.range k).map f ∧
    (recordIter f k ⟨[], []⟩).storage
      = (List.range k).flatMap (fun j => (List.range (j + 1)).map f) ∧
    ((recordIter f k ⟨[], []⟩).storage).length = k * (k + 1) / 2 := by
  induction k with
  | zero => simp [recordIter]
  | succ k ih =>
    have hk : k * (k + 1) / 2 ≤ 100 := by
      rw [triangle_succ k] at h
      exact le_trans (Nat.le_add_right _ _) h
    obtain ⟨ihMem, ihSto, ihLen⟩ := ih hk
    have hlen : ((recordIter f k ⟨[], []⟩).storage
        ++ ((recordIter f k ⟨[], []⟩).failedOps ++ [f k])).length
          = (k + 1) * (k + 2) / 2 := by
      simp [ihLen, ihMem, triangle_succ k]
    have hSto : (recordIter f (k + 1) ⟨[], []⟩).storage
        = (recordIter f k ⟨[], []⟩).storage
          ++ ((recordIter f k ⟨[], []⟩).failedOps ++ [f k]) := by
      show sliceLast 100 _ = _
      unfold sliceLast
      rw [hlen, Nat.sub_eq_zero_of_le h, List.drop_zero]
    refine ⟨?_, ?_, ?_⟩
    · show (recordIter f k ⟨[], []⟩).failedOps ++ [f k] = _
      rw [ihMem, List.range_succ, List.map_append]
      rfl
    · rw [hSto, ihSto, ihMem]
      simp [List.range_succ]
    · rw [hSto]
      simp only [List.length_append]
      rw [ihLen]
      simp [ihMem, triangle_succ k]

/-- C10 amended witness: at k = 2 the triangular bound holds and the
persisted backlog holds 3 = 2·3/2 records. -/
theorem recordIter_storage_triangular_witness :
    2 * (2 + 1) / 2 ≤ 100 ∧
    ((recordIter recOps 2 ⟨[], []⟩).storage).length = 2 * (2 + 1) / 2 :=
  ⟨by norm_num,
    (recordIter_storage_triangular recOps 2 (by norm_num)).2.2⟩
